import Mathlib

/-!
Shallow embedding of `src/untitled31.py`, a YouTube video summarizer.

The file models:
* the video-id regular expression
  `(?:v=|youtu\.be\/|http:\/\/googleusercontent\.com\/youtube\.com\/\d+)([a-zA-Z0-9_-]{11})`
  applied with `re.search` semantics (leftmost match, alternatives tried in
  order at each position, greedy backtracking for `\d+`);
* `extract_transcript_details`, with the external `get_transcript` call
  abstracted as a function from the video id to a response;
* `generate_gemini_content`, with the generative model abstracted as a
  function from the request payload to a response;
* the startup credential check and the submit handler with its
  substring-based error classification.
-/

/-- Character class `[a-zA-Z0-9_-]` of the capture group. -/
def isIdChar (c : Char) : Bool :=
  c.isAlpha || c.isDigit || c == '_' || c == '-'

/-- Match a literal character sequence at the front of the input, returning
the remainder on success. -/
def dropLit : List Char → List Char → Option (List Char)
  | [], l => some l
  | _ :: _, [] => none
  | p :: ps, c :: cs => if p = c then dropLit ps cs else none

/-- The capture group `([a-zA-Z0-9_-]{11})`: exactly 11 identifier
characters taken from the front of the input. -/
def tryCapture (l : List Char) : Option (List Char) :=
  if (l.take 11).length = 11 ∧ (l.take 11).all isIdChar then some (l.take 11)
  else none

/-- `\d+` followed by the capture group, with the greedy backtracking of the
regex engine: longer digit runs are tried first.  The caller has already
checked that at least the literal part of the alternative matched; this
function requires at least one digit. -/
def dplusGo : List Char → Option (List Char)
  | [] => none
  | c :: ls => if c.isDigit then dplusGo ls <|> tryCapture ls else none

/-- Literal of the first alternative, `v=`. -/
def vEqLit : List Char := ['v', '=']

/-- Literal of the second alternative, `youtu.be/` (the backslashes in the
pattern only escape `.` and `/`). -/
def youtuBeLit : List Char := "youtu.be/".data

/-- Literal part of the third alternative,
`http://googleusercontent.com/youtube.com/` (before `\d+`). -/
def proxyLit : List Char := "http://googleusercontent.com/youtube.com/".data

/-- One attempt of the whole pattern at a fixed start position: the three
alternatives are tried left to right; a captured group is returned on
success. -/
def matchAt (l : List Char) : Option (List Char) :=
  (match dropLit vEqLit l with
    | some r => tryCapture r
    | none => none) <|>
  (match dropLit youtuBeLit l with
    | some r => tryCapture r
    | none => none) <|>
  (match dropLit proxyLit l with
    | some r => dplusGo r
    | none => none)

/-- `re.search`: try the pattern at every position from the left, return the
group of the first match. -/
def search : List Char → Option (List Char)
  | [] => none
  | c :: l => matchAt (c :: l) <|> search l

/-- Message of the `ValueError` raised when the regex does not match. -/
def invalidUrlMsg : String :=
  "Invalid YouTube URL format provided. Please use a valid YouTube link."

/-- The video-id extraction step of `extract_transcript_details`
(lines 38-41): `re.search` on the url, `ValueError` when there is no
match, `group(1)` otherwise. -/
def extract_video_id (url : String) : Except String String :=
  match search url.data with
  | some t => .ok (String.mk t)
  | none => .error invalidUrlMsg

/-- One timed transcript segment; the code only reads its `text` field
(`item["text"]`). -/
structure TranscriptSegment where
  text : String
deriving DecidableEq

/-- The possible outcomes of the external `get_transcript` call as seen by
`extract_transcript_details`: a segment list, or one of the two library
exceptions it handles specifically, or any other exception with its
message. -/
inductive FetchResult where
  | ok (segments : List TranscriptSegment)
  | transcriptsDisabled
  | noTranscriptFound
  | otherError (msg : String)
deriving DecidableEq

/-- `extract_transcript_details` (lines 26-58).  The external
`get_transcript` call is passed in as `get`.  The `ValueError` raised for
an invalid url inside the `try` block is not a `TranscriptsDisabled` or
`NoTranscriptFound`, so it is caught by the generic
`except Exception as e` clause and re-raised with the
`Failed to fetch transcript: ` message prefix. -/
def extract_transcript_details (get : String → FetchResult)
    (youtube_video_url : String) : Except String String :=
  match extract_video_id youtube_video_url with
  | .error e => .error ("Failed to fetch transcript: " ++ e)
  | .ok video_id =>
    match get video_id with
    | .ok transcript_list =>
        .ok (String.intercalate " " (transcript_list.map TranscriptSegment.text))
    | .transcriptsDisabled =>
        .error "Transcripts are disabled for this video by the uploader."
    | .noTranscriptFound =>
        .error "No English transcript found for this video."
    | .otherError m => .error ("Failed to fetch transcript: " ++ m)

/-- `generate_gemini_content` (lines 61-80).  The Gemini model is abstracted
as a function `model` from the request payload to a response; the payload is
`prompt_text + transcript_text`, and on success `response.text` is returned
unchanged.  A service failure is wrapped with `Gemini API call failed: `. -/
def generate_gemini_content (model : String → Except String String)
    (transcript_text prompt_text : String) : Except String String :=
  match model (prompt_text ++ transcript_text) with
  | .ok t => .ok t
  | .error e => .error ("Gemini API call failed: " ++ e)

/-- The fixed summarization prompt (lines 20-22). -/
def prompt : String :=
  "You are a YouTube video summarizer. You will be taking the transcript text\nand summarizing the entire video and providing the important summary in points\nwithin 250 words. Please provide the summary of the text given here: "

/-- Boolean infix test on character lists, the semantics of Python's
`needle in haystack` for strings. -/
def isInfixB : List Char → List Char → Bool
  | n, [] => n.isEmpty
  | n, c :: t => n.isPrefixOf (c :: t) || isInfixB n t

/-- Python's `needle in haystack` on strings. -/
def containsSubstr (needle hay : String) : Bool :=
  isInfixB needle.data hay.data

/-- The guidance message chosen by the orchestrator's error classification
(lines 119-130), one constructor per branch. -/
inductive Guidance where
  | noEnglishTranscript
  | transcriptsDisabled
  | invalidUrl
  | rateLimited
  | geminiBadRequest
  | generic
deriving DecidableEq

/-- The substring classification of lines 119-130, in source order. -/
def classify_error (msg : String) : Guidance :=
  if containsSubstr "No English transcript found" msg then .noEnglishTranscript
  else if containsSubstr "Transcripts are disabled" msg then .transcriptsDisabled
  else if containsSubstr "Invalid YouTube URL" msg then .invalidUrl
  else if containsSubstr "403" msg || containsSubstr "429" msg
      || containsSubstr "API rate limit exceeded" msg then .rateLimited
  else if containsSubstr "400" msg && containsSubstr "Gemini API call failed" msg then
    .geminiBadRequest
  else .generic

/-- Outcome of one submit interaction as visible to the user. -/
inductive UIOutcome where
  | warningEmptyInput
  | success (transcriptLength : Nat) (summary : String)
  | failure (guidance : Guidance)
deriving DecidableEq

/-- The submit handler (lines 97-130): empty input gets a warning and
nothing else runs; otherwise transcript extraction then summary generation,
with any raised error classified to a guidance message. -/
def submit (get : String → FetchResult) (model : String → Except String String)
    (youtube_link : String) : UIOutcome :=
  if youtube_link = "" then .warningEmptyInput
  else
    match extract_transcript_details get youtube_link with
    | .error e => .failure (classify_error e)
    | .ok transcript_text =>
      match generate_gemini_content model transcript_text prompt with
      | .error e => .failure (classify_error e)
      | .ok summary => .success transcript_text.length summary

/-- Result of the startup credential check. -/
inductive StartupResult where
  | running (key : String)
  | halted (message : String)
deriving DecidableEq

/-- The startup block (lines 13-17): a missing `GEMINI_API_KEY` secret
raises `KeyError`, which is caught; an error banner is shown and `st.stop()`
halts the script before any UI is built. -/
def startup (secrets : String → Option String) : StartupResult :=
  match secrets "GEMINI_API_KEY" with
  | some k => .running k
  | none =>
      .halted "Gemini API Key not found in Streamlit Secrets. Please add it to your app's secrets."

/-- Modelled from the spec: the transcript-selection policy of the external
`youtube_transcript_api.get_transcript` call, whose implementation is not in
`src/`.  Per the spec, a response exposes at most one manually created
English transcript and at most one auto-generated English transcript. -/
structure TranscriptListing where
  manualEnglish : Option (List TranscriptSegment)
  generatedEnglish : Option (List TranscriptSegment)
deriving DecidableEq

/-- Modelled from the spec: `get_transcript` prefers a manually created
English transcript, falls back to an auto-generated English transcript, and
raises `NoTranscriptFound` when neither exists. -/
def get_transcript (listing : TranscriptListing) : FetchResult :=
  match listing.manualEnglish with
  | some segs => .ok segs
  | none =>
    match listing.generatedEnglish with
    | some segs => .ok segs
    | none => .noTranscriptFound

/-- The canonical watch link shape, marker included. -/
def watchLit : List Char := "https://www.youtube.com/watch?v=".data

/-- The canonical shortened link shape, marker included. -/
def shortLit : List Char := "https://youtu.be/".data

example : search "https://www.youtube.com/watch?v=dQw4w9WgXcQ".data = some "dQw4w9WgXcQ".data := by decide
example : search "https://youtu.be/dQw4w9WgXcQ".data = some "dQw4w9WgXcQ".data := by decide
example : search "http://googleusercontent.com/youtube.com/3dQw4w9WgXcQ".data = some "dQw4w9WgXcQ".data := by decide
example : search "hello world".data = none := by decide
example : search "http://googleusercontent.com/youtube.com/100000000000abc".data = some "00000000abc".data := by decide
example : classify_error "Failed to fetch transcript: Invalid YouTube URL format provided. Please use a valid YouTube link." = .invalidUrl := by decide

/-! Helper lemmas about `search`.  At a position whose leading characters
rule out all three alternatives by literal mismatch alone, the searcher
steps one character to the right; each such step is definitional. -/

theorem search_skip_t (l : List Char) : search ('t' :: l) = search l := rfl

theorem search_skip_colon (l : List Char) : search (':' :: l) = search l := rfl

theorem search_skip_slash (l : List Char) : search ('/' :: l) = search l := rfl

theorem search_skip_w (l : List Char) : search ('w' :: l) = search l := rfl

theorem search_skip_dot (l : List Char) : search ('.' :: l) = search l := rfl

theorem search_skip_e (l : List Char) : search ('e' :: l) = search l := rfl

theorem search_skip_c (l : List Char) : search ('c' :: l) = search l := rfl

theorem search_skip_o (l : List Char) : search ('o' :: l) = search l := rfl

theorem search_skip_m (l : List Char) : search ('m' :: l) = search l := rfl

theorem search_skip_a (l : List Char) : search ('a' :: l) = search l := rfl

theorem search_skip_p (l : List Char) : search ('p' :: l) = search l := rfl

theorem search_skip_s (l : List Char) : search ('s' :: l) = search l := rfl

theorem search_skip_u (l : List Char) : search ('u' :: l) = search l := rfl

theorem search_skip_b (l : List Char) : search ('b' :: l) = search l := rfl

theorem search_skip_qmark (l : List Char) : search ('?' :: l) = search l := rfl

theorem search_skip_https (l : List Char) :
    search ('h' :: 't' :: 't' :: 'p' :: 's' :: l) = search ('t' :: 't' :: 'p' :: 's' :: l) := rfl

theorem search_skip_youtube (l : List Char) :
    search ('y' :: 'o' :: 'u' :: 't' :: 'u' :: 'b' :: l) =
      search ('o' :: 'u' :: 't' :: 'u' :: 'b' :: l) := rfl

theorem search_skip_hq (l : List Char) :
    search ('h' :: '?' :: l) = search ('?' :: l) := rfl

theorem search_of_matchAt {l g : List Char} (h : matchAt l = some g) :
    search l = some g := by
  cases l with
  | nil => exact Option.noConfusion (show (none : Option (List Char)) = some g from h)
  | cons c cs =>
    show (matchAt (c :: cs) <|> search cs) = some g
    rw [h]
    rfl

theorem matchAt_vEq {l g : List Char} (h : tryCapture l = some g) :
    matchAt ('v' :: '=' :: l) = some g := by
  show (tryCapture l <|> (none <|> none) : Option (List Char)) = some g
  rw [h]
  rfl

theorem matchAt_youtuBe {l g : List Char} (h : tryCapture l = some g) :
    matchAt ('y' :: 'o' :: 'u' :: 't' :: 'u' :: '.' :: 'b' :: 'e' :: '/' :: l) = some g := by
  show (none <|> (tryCapture l <|> none) : Option (List Char)) = some g
  rw [h]
  rfl

theorem matchAt_proxyLit {l g : List Char} (h : dplusGo l = some g) :
    matchAt (proxyLit ++ l) = some g := by
  show (none <|> (none <|> dplusGo l) : Option (List Char)) = some g
  rw [h]
  rfl

theorem tryCapture_append (token rest : List Char) (h11 : token.length = 11)
    (hid : token.all isIdChar = true) : tryCapture (token ++ rest) = some token := by
  have ht : (token ++ rest).take 11 = token := List.take_left' h11
  simp [tryCapture, ht, h11, hid]

theorem dplusGo_append (ds l g : List Char) (hne : ds ≠ [])
    (hall : ds.all Char.isDigit = true)
    (hhead : l.head?.any Char.isDigit = false)
    (hcap : tryCapture l = some g) :
    dplusGo (ds ++ l) = some g := by
  induction ds with
  | nil => exact absurd rfl hne
  | cons d ds ih =>
    rw [List.all_cons, Bool.and_eq_true] at hall
    have hstep : ∀ ls : List Char,
        dplusGo (d :: ls) = if d.isDigit then dplusGo ls <|> tryCapture ls else none :=
      fun _ => rfl
    cases ds with
    | nil =>
      have hl : dplusGo l = none := by
        cases l with
        | nil => rfl
        | cons c cs =>
          have hc : c.isDigit = false := by simpa using hhead
          simp [dplusGo, hc]
      show dplusGo (d :: l) = some g
      rw [hstep, hall.1, hl, hcap]
      rfl
    | cons d' ds' =>
      have hrec := ih (by simp) hall.2
      show dplusGo (d :: (d' :: ds' ++ l)) = some g
      rw [hstep, hall.1, hrec]
      rfl

theorem extract_video_id_mk (l t : List Char) (h : search l = some t) :
    extract_video_id (String.mk l) = .ok (String.mk t) := by
  unfold extract_video_id
  rw [show (String.mk l).data = l from rfl, h]

/-- Claim C4 (amended): for canonical links of the three recognized shapes
carrying an 11-character identifier token right after the marker, the
extractor returns exactly that token; in the proxied googleusercontent
shape this additionally requires the token not to begin with a digit,
because the greedy digit run of the pattern can otherwise shift the
captured window. -/
theorem extract_video_id_recognized_shapes (token rest digits : List Char)
    (h11 : token.length = 11) (hid : token.all isIdChar = true)
    (hdne : digits ≠ []) (hdall : digits.all Char.isDigit = true) :
    extract_video_id (String.mk (watchLit ++ (token ++ rest))) = .ok (String.mk token) ∧
    extract_video_id (String.mk (shortLit ++ (token ++ rest))) = .ok (String.mk token) ∧
    (token.head?.any Char.isDigit = false →
      extract_video_id (String.mk (proxyLit ++ (digits ++ (token ++ rest)))) =
        .ok (String.mk token)) := by
  have hcap := tryCapture_append token rest h11 hid
  refine ⟨?_, ?_, ?_⟩
  · apply extract_video_id_mk
    have e : watchLit ++ (token ++ rest) =
        'h' :: 't' :: 't' :: 'p' :: 's' :: ':' :: '/' :: '/' :: 'w' :: 'w' :: 'w' :: '.' :: 'y' :: 'o' :: 'u' :: 't' :: 'u' :: 'b' :: 'e' :: '.' :: 'c' :: 'o' :: 'm' :: '/' :: 'w' :: 'a' :: 't' :: 'c' :: 'h' :: '?' :: 'v' :: '=' :: (token ++ rest) := rfl
    rw [e]
    simp only [search_skip_https, search_skip_colon, search_skip_slash, search_skip_w,
      search_skip_dot, search_skip_youtube, search_skip_e, search_skip_c, search_skip_o,
      search_skip_m, search_skip_a, search_skip_t, search_skip_p, search_skip_s,
      search_skip_u, search_skip_b, search_skip_hq, search_skip_qmark]
    exact search_of_matchAt (matchAt_vEq hcap)
  · apply extract_video_id_mk
    have e : shortLit ++ (token ++ rest) =
        'h' :: 't' :: 't' :: 'p' :: 's' :: ':' :: '/' :: '/' :: 'y' :: 'o' :: 'u' :: 't' :: 'u' :: '.' :: 'b' :: 'e' :: '/' :: (token ++ rest) := rfl
    rw [e]
    simp only [search_skip_https, search_skip_colon, search_skip_slash, search_skip_t,
      search_skip_p, search_skip_s]
    exact search_of_matchAt (matchAt_youtuBe hcap)
  · intro hhead
    apply extract_video_id_mk
    have hh : (token ++ rest).head?.any Char.isDigit = false := by
      cases token with
      | nil => simp at h11
      | cons c cs => simpa using hhead
    exact search_of_matchAt (matchAt_proxyLit
      (dplusGo_append digits (token ++ rest) token hdne hdall hh hcap))

/-- Witness for Claim C4 (amended) at the token `dQw4w9WgXcQ`, empty rest,
digit run `7`. -/
theorem extract_video_id_recognized_shapes_witness :
    extract_video_id (String.mk (watchLit ++ ("dQw4w9WgXcQ".data ++ []))) =
      .ok (String.mk "dQw4w9WgXcQ".data) ∧
    extract_video_id (String.mk (shortLit ++ ("dQw4w9WgXcQ".data ++ []))) =
      .ok (String.mk "dQw4w9WgXcQ".data) ∧
    extract_video_id (String.mk (proxyLit ++ ("7".data ++ ("dQw4w9WgXcQ".data ++ [])))) =
      .ok (String.mk "dQw4w9WgXcQ".data) := by
  have h := extract_video_id_recognized_shapes "dQw4w9WgXcQ".data [] "7".data
    (by decide) (by decide) (by decide) (by decide)
  exact ⟨h.1, h.2.1, h.2.2 (by decide)⟩

/-- Claim C4 counterexample: the link
`http://googleusercontent.com/youtube.com/100000000000abc` matches the
proxied shape with digit run `1` followed by the well-formed 11-character
token `00000000000`, yet the extractor returns `00000000abc`: the greedy
digit run backtracks to four digits and captures a shifted window. -/
theorem extract_video_id_shifted_capture :
    "http://googleusercontent.com/youtube.com/100000000000abc" =
      String.mk (proxyLit ++ ("1".data ++ ("00000000000".data ++ "abc".data))) ∧
    ("00000000000".data).length = 11 ∧
    ("00000000000".data).all isIdChar = true ∧
    "1".data ≠ [] ∧
    ("1".data).all Char.isDigit = true ∧
    extract_video_id "http://googleusercontent.com/youtube.com/100000000000abc" =
      .ok "00000000abc" ∧
    ("00000000abc" : String) ≠ "00000000000" := by
  exact ⟨rfl, rfl, rfl, by decide, rfl, rfl, by decide⟩

/-- Claim C1: with the spec-modelled selection policy of the external
`get_transcript` call, the fetcher returns the manual English transcript
when one exists, falls back to the auto-generated English transcript
otherwise, and fails with the no-transcript error when neither exists. -/
theorem fetch_transcript_selection (listing : TranscriptListing) (url : String)
    (vid : List Char) (hurl : search url.data = some vid) :
    (∀ m, listing.manualEnglish = some m →
      extract_transcript_details (fun _ => get_transcript listing) url =
        .ok (String.intercalate " " (m.map TranscriptSegment.text))) ∧
    (listing.manualEnglish = none → ∀ g, listing.generatedEnglish = some g →
      extract_transcript_details (fun _ => get_transcript listing) url =
        .ok (String.intercalate " " (g.map TranscriptSegment.text))) ∧
    (listing.manualEnglish = none → listing.generatedEnglish = none →
      extract_transcript_details (fun _ => get_transcript listing) url =
        .error "No English transcript found for this video.") := by
  refine ⟨?_, ?_, ?_⟩ <;> intros <;>
    simp [extract_transcript_details, extract_video_id, hurl, get_transcript, *]

/-- Witness for Claim C1: a listing with both a manual and an auto-generated
English transcript yields the manual text. -/
theorem fetch_transcript_selection_witness :
    extract_transcript_details
      (fun _ => get_transcript ⟨some [⟨"manual"⟩], some [⟨"auto"⟩]⟩)
      "https://youtu.be/dQw4w9WgXcQ" =
      .ok (String.intercalate " " ([TranscriptSegment.mk "manual"].map TranscriptSegment.text)) :=
  (fetch_transcript_selection ⟨some [⟨"manual"⟩], some [⟨"auto"⟩]⟩
    "https://youtu.be/dQw4w9WgXcQ" "dQw4w9WgXcQ".data (by decide)).1 [⟨"manual"⟩] rfl

/-- Claim C2: a selected transcript's segments are joined by a single space
in order; in particular two segments `hello` and `world` give
`hello world`. -/
theorem fetch_transcript_join (get : String → FetchResult) (url : String)
    (vid : List Char) (segs : List TranscriptSegment)
    (hurl : search url.data = some vid) (hget : get (String.mk vid) = .ok segs) :
    extract_transcript_details get url =
      .ok (String.intercalate " " (segs.map TranscriptSegment.text)) ∧
    String.intercalate " "
        ([TranscriptSegment.mk "hello", TranscriptSegment.mk "world"].map TranscriptSegment.text) =
      "hello world" := by
  refine ⟨?_, rfl⟩
  simp [extract_transcript_details, extract_video_id, hurl, hget]

/-- Witness for Claim C2 on segments `hello` and `world`. -/
theorem fetch_transcript_join_witness :
    extract_transcript_details (fun _ => .ok [⟨"hello"⟩, ⟨"world"⟩])
      "https://youtu.be/dQw4w9WgXcQ" =
      .ok (String.intercalate " "
        ([TranscriptSegment.mk "hello", TranscriptSegment.mk "world"].map TranscriptSegment.text)) ∧
    String.intercalate " "
        ([TranscriptSegment.mk "hello", TranscriptSegment.mk "world"].map TranscriptSegment.text) =
      "hello world" :=
  fetch_transcript_join (fun _ => .ok [⟨"hello"⟩, ⟨"world"⟩]) "https://youtu.be/dQw4w9WgXcQ"
    "dQw4w9WgXcQ".data [⟨"hello"⟩, ⟨"world"⟩] (by decide) rfl

/-- Claim C3: `generate_gemini_content` sends the single payload
`prompt_text ++ transcript_text` (prompt immediately before the transcript,
no delimiter) and returns the service's response text unchanged; the
particular payload for transcript `abc` and prompt `P: ` is `P: abc`. -/
theorem generate_summary_payload (model : String → Except String String)
    (transcript_text prompt_text r : String)
    (h : model (prompt_text ++ transcript_text) = .ok r) :
    generate_gemini_content model transcript_text prompt_text = .ok r ∧
    "P: " ++ "abc" = "P: abc" := by
  refine ⟨?_, rfl⟩
  simp [generate_gemini_content, h]

/-- Witness for Claim C3 with an echoing service: the returned text is the
payload `P: abc` itself. -/
theorem generate_summary_payload_witness :
    generate_gemini_content (fun s => .ok s) "abc" "P: " = .ok "P: abc" ∧
    "P: " ++ "abc" = "P: abc" :=
  generate_summary_payload (fun s => .ok s) "abc" "P: " "P: abc" rfl

/-- Claim C5: when the pattern does not match anywhere in the input, the
extractor fails with exactly the invalid-url `ValueError` message, and no
other error message can be produced by it. -/
theorem extract_video_id_no_match (url : String) (h : search url.data = none) :
    extract_video_id url = .error invalidUrlMsg ∧
    ∀ e, extract_video_id url = .error e → e = invalidUrlMsg := by
  constructor
  · simp [extract_video_id, h]
  · intro e he
    simp [extract_video_id, h] at he
    exact he.symm

/-- Witness for Claim C5 on the input `not a link`. -/
theorem extract_video_id_no_match_witness :
    extract_video_id "not a link" = .error invalidUrlMsg ∧
    ∀ e, extract_video_id "not a link" = .error e → e = invalidUrlMsg :=
  extract_video_id_no_match "not a link" (by decide)

/-- Claim C6: a transcripts-disabled failure on the canonical watch link is
classified to the transcripts-disabled guidance, not the generic
fallback. -/
theorem orchestrator_transcripts_disabled (model : String → Except String String) :
    submit (fun _ => .transcriptsDisabled) model
      "https://www.youtube.com/watch?v=dQw4w9WgXcQ" = .failure .transcriptsDisabled ∧
    Guidance.transcriptsDisabled ≠ Guidance.generic :=
  ⟨rfl, by decide⟩

/-- Claim C7: an empty link on submit yields the warning, and the outcome is
independent of both external services, so neither is invoked. -/
theorem empty_input_no_calls (g₁ g₂ : String → FetchResult)
    (m₁ m₂ : String → Except String String) :
    submit g₁ m₁ "" = .warningEmptyInput ∧ submit g₁ m₁ "" = submit g₂ m₂ "" :=
  ⟨rfl, rfl⟩

/-- Claim C8: two fetches of the same url against transcript services that
agree on every video id produce the same result: the fetch is a pure read
of the remote transcript. -/
theorem fetch_transcript_idempotent (g₁ g₂ : String → FetchResult) (url : String)
    (h : ∀ v, g₁ v = g₂ v) :
    extract_transcript_details g₁ url = extract_transcript_details g₂ url := by
  unfold extract_transcript_details
  cases extract_video_id url with
  | error e => rfl
  | ok vid => simp only [h vid]

/-- Witness for Claim C8 with an empty-transcript service. -/
theorem fetch_transcript_idempotent_witness :
    extract_transcript_details (fun _ => FetchResult.ok []) "https://youtu.be/dQw4w9WgXcQ" =
      extract_transcript_details (fun _ => FetchResult.ok []) "https://youtu.be/dQw4w9WgXcQ" :=
  fetch_transcript_idempotent _ _ _ (fun _ => rfl)

/-- Claim C9: a missing `GEMINI_API_KEY` secret halts startup with the
configuration error message, and the system does not reach the running
state. -/
theorem startup_missing_credential (secrets : String → Option String)
    (h : secrets "GEMINI_API_KEY" = none) :
    startup secrets =
      .halted "Gemini API Key not found in Streamlit Secrets. Please add it to your app's secrets." ∧
    ∀ k, startup secrets ≠ .running k := by
  constructor
  · simp [startup, h]
  · intro k hk
    simp [startup, h] at hk

/-- Witness for Claim C9 with an empty secret store. -/
theorem startup_missing_credential_witness :
    startup (fun _ => none) =
      .halted "Gemini API Key not found in Streamlit Secrets. Please add it to your app's secrets." ∧
    ∀ k, startup (fun _ => none) ≠ .running k :=
  startup_missing_credential (fun _ => none) rfl

/-- Claim C10: an unmatched link makes `extract_transcript_details` raise
the invalid-url `ValueError` re-wrapped by its own generic handler, so the
escaping message carries the `Failed to fetch transcript: ` prefix, still
contains `Invalid YouTube URL`, and the orchestrator classifies it to the
invalid-link guidance rather than the generic fallback. -/
theorem invalid_link_classification (get : String → FetchResult) (url : String)
    (h : search url.data = none) :
    extract_transcript_details get url =
      .error ("Failed to fetch transcript: " ++ invalidUrlMsg) ∧
    containsSubstr "Invalid YouTube URL" ("Failed to fetch transcript: " ++ invalidUrlMsg) = true ∧
    classify_error ("Failed to fetch transcript: " ++ invalidUrlMsg) = .invalidUrl ∧
    Guidance.invalidUrl ≠ Guidance.generic := by
  refine ⟨?_, by decide, by decide, by decide⟩
  simp [extract_transcript_details, extract_video_id, h]

/-- Witness for Claim C10 on the input `nope`. -/
theorem invalid_link_classification_witness :
    extract_transcript_details (fun _ => .ok []) "nope" =
      .error ("Failed to fetch transcript: " ++ invalidUrlMsg) ∧
    containsSubstr "Invalid YouTube URL" ("Failed to fetch transcript: " ++ invalidUrlMsg) = true ∧
    classify_error ("Failed to fetch transcript: " ++ invalidUrlMsg) = .invalidUrl ∧
    Guidance.invalidUrl ≠ Guidance.generic :=
  invalid_link_classification (fun _ => .ok []) "nope" (by decide)
